import Mathlib

/-!
Shallow embedding of the screeps-starter bot (`src/lib.rs`): the persisted-memory
codec (serde externally-tagged enums through serde_wasm_bindgen), the per-tick
creep job state machine (`run_simple_worker_with_job`, `run_creep`) and the
spawner controller (`run_spawn`, `spawn_simple_worker`), together with theorems
checking the specification's claims against these definitions.
-/

namespace ScreepsStarter

/-! ## JavaScript values

Model of the JS values produced and consumed by `serde_wasm_bindgen::to_value`
and `from_value`.  Arrays and objects are represented with explicit cons cells
(`arrCons`, `objCons`) so that equality stays derivable; a single-field object
`{tag: v}` — the externally-tagged form of a newtype enum variant — is
`objCons tag v objNil`. -/
inductive JsValue where
  | null
  | undefined
  | boolean (b : Bool)
  | num (n : Int)
  | str (s : String)
  | arrNil
  | arrCons (head tail : JsValue)
  | objNil
  | objCons (key : String) (value rest : JsValue)
  deriving DecidableEq

/-! ## Persisted memory types (`lib.rs` lines 36–59)

Object identifiers (`ObjectId<T>` in the source) are serialized by serde as
their hex-string form; they are modelled as opaque strings.  The spawner
counter is an `i32` in the source; it is modelled as `Int`, with the `i32`
range enforced where the source's deserializer would enforce it. -/

inductive SimpleJob where
  | MoveToSource (id : String)
  | HarvestSource (id : String)
  | MoveToController (id : String)
  | UpgradeController (id : String)
  | MoveToSpawn (id : String)
  | TransferToSpawn (id : String)
  | MoveToExtension (id : String)
  | TransferToExtension (id : String)
  | MoveToConstructionSite (id : String)
  | ConstructSite (id : String)
  | Idle
  deriving DecidableEq

inductive CreepMemory where
  | SimpleWorker (job : SimpleJob)
  deriving DecidableEq

inductive StructureMemory where
  | GenericSpawner (n : Int)
  deriving DecidableEq

def i32Min : Int := -(2 ^ 31)

def i32Max : Int := 2 ^ 31 - 1

/-- The `i32` range constraint on the spawner counter: every value the Rust
`i32` field can hold satisfies it. -/
def StructureMemory.counterInRange : StructureMemory → Prop
  | StructureMemory.GenericSpawner n => i32Min ≤ n ∧ n ≤ i32Max

instance : DecidablePred StructureMemory.counterInRange := by
  intro m
  cases m with
  | GenericSpawner n => exact inferInstanceAs (Decidable (i32Min ≤ n ∧ n ≤ i32Max))

/-! ## The serde codec

`to_value` on a derived `Serialize` enum uses the externally-tagged
representation: a unit variant becomes the variant-name string, a newtype
variant becomes the single-field object `{variantName: serializedPayload}`.
`from_value` accepts exactly those shapes and fails on anything else. -/

def encodeObjectId (id : String) : JsValue := JsValue.str id

def decodeObjectId : JsValue → Option String
  | JsValue.str s => some s
  | _ => none

def encodeSimpleJob : SimpleJob → JsValue
  | SimpleJob.MoveToSource id => JsValue.objCons "MoveToSource" (encodeObjectId id) JsValue.objNil
  | SimpleJob.HarvestSource id => JsValue.objCons "HarvestSource" (encodeObjectId id) JsValue.objNil
  | SimpleJob.MoveToController id => JsValue.objCons "MoveToController" (encodeObjectId id) JsValue.objNil
  | SimpleJob.UpgradeController id => JsValue.objCons "UpgradeController" (encodeObjectId id) JsValue.objNil
  | SimpleJob.MoveToSpawn id => JsValue.objCons "MoveToSpawn" (encodeObjectId id) JsValue.objNil
  | SimpleJob.TransferToSpawn id => JsValue.objCons "TransferToSpawn" (encodeObjectId id) JsValue.objNil
  | SimpleJob.MoveToExtension id => JsValue.objCons "MoveToExtension" (encodeObjectId id) JsValue.objNil
  | SimpleJob.TransferToExtension id => JsValue.objCons "TransferToExtension" (encodeObjectId id) JsValue.objNil
  | SimpleJob.MoveToConstructionSite id => JsValue.objCons "MoveToConstructionSite" (encodeObjectId id) JsValue.objNil
  | SimpleJob.ConstructSite id => JsValue.objCons "ConstructSite" (encodeObjectId id) JsValue.objNil
  | SimpleJob.Idle => JsValue.str "Idle"

def decodeSimpleJob : JsValue → Option SimpleJob
  | JsValue.str s => if s = "Idle" then some SimpleJob.Idle else none
  | JsValue.objCons tag v JsValue.objNil =>
      if tag = "MoveToSource" then Option.map SimpleJob.MoveToSource (decodeObjectId v)
      else if tag = "HarvestSource" then Option.map SimpleJob.HarvestSource (decodeObjectId v)
      else if tag = "MoveToController" then Option.map SimpleJob.MoveToController (decodeObjectId v)
      else if tag = "UpgradeController" then Option.map SimpleJob.UpgradeController (decodeObjectId v)
      else if tag = "MoveToSpawn" then Option.map SimpleJob.MoveToSpawn (decodeObjectId v)
      else if tag = "TransferToSpawn" then Option.map SimpleJob.TransferToSpawn (decodeObjectId v)
      else if tag = "MoveToExtension" then Option.map SimpleJob.MoveToExtension (decodeObjectId v)
      else if tag = "TransferToExtension" then Option.map SimpleJob.TransferToExtension (decodeObjectId v)
      else if tag = "MoveToConstructionSite" then Option.map SimpleJob.MoveToConstructionSite (decodeObjectId v)
      else if tag = "ConstructSite" then Option.map SimpleJob.ConstructSite (decodeObjectId v)
      else none
  | _ => none

def encodeCreepMemory : CreepMemory → JsValue
  | CreepMemory.SimpleWorker job => JsValue.objCons "SimpleWorker" (encodeSimpleJob job) JsValue.objNil

def decodeCreepMemory : JsValue → Option CreepMemory
  | JsValue.objCons tag v JsValue.objNil =>
      if tag = "SimpleWorker" then Option.map CreepMemory.SimpleWorker (decodeSimpleJob v)
      else none
  | _ => none

/-- Deserialization of an `i32` field: accepts an integral number in `i32`
range, rejects anything else. -/
def decodeI32 : JsValue → Option Int
  | JsValue.num n => if i32Min ≤ n ∧ n ≤ i32Max then some n else none
  | _ => none

def encodeStructureMemory : StructureMemory → JsValue
  | StructureMemory.GenericSpawner n => JsValue.objCons "GenericSpawner" (JsValue.num n) JsValue.objNil

def decodeStructureMemory : JsValue → Option StructureMemory
  | JsValue.objCons tag v JsValue.objNil =>
      if tag = "GenericSpawner" then Option.map StructureMemory.GenericSpawner (decodeI32 v)
      else none
  | _ => none

/-- The creep-memory decoder with the default used in `run_creep` (line 124):
`from_value(creep.memory()).unwrap_or(CreepMemory::SimpleWorker(SimpleJob::Idle))`. -/
def decodeCreepMemoryOrDefault (raw : JsValue) : CreepMemory :=
  (decodeCreepMemory raw).getD (CreepMemory.SimpleWorker SimpleJob.Idle)

/-! ## World snapshot

The tick-frozen world the creep logic observes: resolvable objects (keyed by
identifier) and per-room query results.  `Position.isNearTo` is the game's
`pos().is_near_to(..)`: Chebyshev distance at most 1. -/

structure Position where
  x : Int
  y : Int
  deriving DecidableEq

def Position.isNearTo (a b : Position) : Bool :=
  decide ((a.x - b.x).natAbs ≤ 1 ∧ (a.y - b.y).natAbs ≤ 1)

structure SourceObj where
  id : String
  pos : Position
  deriving DecidableEq

structure SpawnObj where
  id : String
  pos : Position
  deriving DecidableEq

structure ControllerObj where
  id : String
  pos : Position
  deriving DecidableEq

/-- A construction site; `id` models `try_id()` succeeding, as it does for any
site returned by `find(MY_CONSTRUCTION_SITES)`. -/
structure SiteObj where
  id : String
  pos : Position
  deriving DecidableEq

/-- The per-room query results used by the state machine: `find(SOURCES)`,
`find(MY_CONSTRUCTION_SITES)`, `find(MY_SPAWNS)` and `controller()`. -/
structure RoomObj where
  sources : List SourceObj := []
  myConstructionSites : List SiteObj := []
  mySpawns : List SpawnObj := []
  controller : Option ControllerObj := none
  deriving DecidableEq

/-- The resolvable objects of the world; `ObjectId::resolve` looks its target
up here. -/
structure World where
  spawns : List SpawnObj := []
  sources : List SourceObj := []
  controllers : List ControllerObj := []
  constructionSites : List SiteObj := []
  deriving DecidableEq

def resolveSpawn (w : World) (id : String) : Option SpawnObj :=
  w.spawns.find? (fun s => s.id == id)

def resolveSource (w : World) (id : String) : Option SourceObj :=
  w.sources.find? (fun s => s.id == id)

def resolveController (w : World) (id : String) : Option ControllerObj :=
  w.controllers.find? (fun c => c.id == id)

def resolveConstructionSite (w : World) (id : String) : Option SiteObj :=
  w.constructionSites.find? (fun s => s.id == id)

/-- The live observations of the creep being run: its position, the free
energy capacity of its store (`store().get_free_capacity(Some(Energy))`,
an `i32`), and the room it stands in (`room()`, absent in pathological cases). -/
structure CreepState where
  pos : Position
  freeEnergyCapacity : Int
  room : Option RoomObj
  deriving DecidableEq

/-! ## Tick effects -/

inductive ResourceType where
  | energy
  deriving DecidableEq

/-- One world-action call made through the game API. -/
inductive Action where
  | transfer (targetId : String) (resource : ResourceType)
  | harvest (targetId : String)
  | moveTo (targetId : String)
  | build (targetId : String)
  | upgrade (targetId : String)
  deriving DecidableEq

/-- How the creep's per-tick processing ended: normally, in a Rust panic
(`expect` / `unwrap` / out-of-bounds indexing), or by reaching a `SimpleJob`
variant that the non-exhaustive `match` of `run_simple_worker_with_job`
(lines 133–190, closed by the comment "and so on, until you do everything.")
has no arm for. -/
inductive Termination where
  | ok
  | panicked (msg : String)
  | uncoveredMatch
  deriving DecidableEq

/-- The observable effects of processing one creep for one tick: the
world-action calls issued (in order), the raw value written by `set_memory`
(if any), and how processing terminated. -/
structure TickResult where
  actions : List Action := []
  memWrite : Option JsValue := none
  term : Termination := Termination.ok
  deriving DecidableEq

/-! ## The creep job state machine (`run_simple_worker_with_job`, lines 132–191)

Each arm follows the source line by line.  Every `set_memory` call in the
source writes `to_value(&SimpleJob::...)` — a bare `SimpleJob`, not a
`CreepMemory::SimpleWorker` wrapper — so `memWrite` records
`encodeSimpleJob ...`. -/

def run_simple_worker_with_job (w : World) (creep : CreepState) (job : SimpleJob) : TickResult :=
  match job with
  | SimpleJob.TransferToSpawn spawnId =>
      match resolveSpawn w spawnId with
      | none => { term := Termination.panicked ("Couldnt resolve spawn: " ++ spawnId) }
      | some spawn =>
          if creep.pos.isNearTo spawn.pos then
            -- transfer is issued first; then the room and its first source are looked up
            match creep.room with
            | none =>
                { actions := [Action.transfer spawn.id ResourceType.energy],
                  term := Termination.panicked "creep isnt in a room?" }
            | some room =>
                match room.sources.head? with
                | none =>
                    { actions := [Action.transfer spawn.id ResourceType.energy],
                      term := Termination.panicked "index out of bounds" }
                | some source =>
                    { actions := [Action.transfer spawn.id ResourceType.energy],
                      memWrite := some (encodeSimpleJob (SimpleJob.MoveToSource source.id)) }
          else
            {}
  | SimpleJob.HarvestSource sourceId =>
      match resolveSource w sourceId with
      | none => { term := Termination.panicked ("Couldnt resolve source: " ++ sourceId) }
      | some source =>
          if creep.pos.isNearTo source.pos then
            if creep.freeEnergyCapacity > 0 then
              { actions := [Action.harvest source.id] }
            else
              match creep.room with
              | none => { term := Termination.panicked "called Option unwrap on a None value" }
              | some room =>
                  match room.myConstructionSites.head? with
                  | some site =>
                      { memWrite := some (encodeSimpleJob (SimpleJob.MoveToConstructionSite site.id)) }
                  | none =>
                      match room.mySpawns.head? with
                      | some spawn =>
                          { memWrite := some (encodeSimpleJob (SimpleJob.MoveToSpawn spawn.id)) }
                      | none =>
                          match room.controller with
                          | none => { term := Termination.panicked "called Option unwrap on a None value" }
                          | some controller =>
                              { memWrite := some (encodeSimpleJob (SimpleJob.MoveToController controller.id)) }
          else
            { memWrite := some (encodeSimpleJob SimpleJob.Idle) }
  | SimpleJob.MoveToConstructionSite constructionSiteId =>
      match resolveConstructionSite w constructionSiteId with
      | some constructionSite =>
          if creep.pos.isNearTo constructionSite.pos then
            { memWrite := some (encodeSimpleJob (SimpleJob.ConstructSite constructionSiteId)) }
          else
            { actions := [Action.moveTo constructionSite.id] }
      | none =>
          -- warn!("Could not complete path to Construction Site: ...")
          { memWrite := some (encodeSimpleJob SimpleJob.Idle) }
  | SimpleJob.MoveToController controllerId =>
      match resolveController w controllerId with
      | some controller =>
          if creep.pos.isNearTo controller.pos then
            { memWrite := some (encodeSimpleJob (SimpleJob.UpgradeController controllerId)) }
          else
            { actions := [Action.moveTo controller.id] }
      | none =>
          -- warn!("Could not complete path to Controller: ...")
          { memWrite := some (encodeSimpleJob SimpleJob.Idle) }
  -- the source match has no arm for the remaining seven variants (Idle,
  -- MoveToSource, UpgradeController, MoveToSpawn, MoveToExtension,
  -- TransferToExtension, ConstructSite): a non-exhaustive match
  | _ => { term := Termination.uncoveredMatch }

/-- The job wrapped by a `CreepMemory` value. -/
def CreepMemory.job : CreepMemory → SimpleJob
  | CreepMemory.SimpleWorker j => j

/-- `run_creep` (lines 123–130): decode the creep's raw memory with the
`SimpleWorker(Idle)` default and dispatch on the wrapper. -/
def run_creep (w : World) (creep : CreepState) (rawMem : JsValue) : TickResult :=
  match decodeCreepMemoryOrDefault rawMem with
  | CreepMemory.SimpleWorker job => run_simple_worker_with_job w creep job

/-! ## The spawner controller (`run_spawn`, lines 96–113; `spawn_simple_worker`, lines 76–81) -/

inductive Part where
  | move
  | carry
  | work
  deriving DecidableEq

/-- One `spawn_creep_with_options` request: body parts, creep name, and the
initial memory passed through `SpawnOptions::memory`. -/
structure SpawnRequest where
  parts : List Part
  name : String
  memory : JsValue
  deriving DecidableEq

/-- The live observations of the spawner being run: its name, the used energy
capacity of its store (`store().get_used_capacity(Some(Energy))`, a `u32`),
and its raw persisted memory. -/
structure SpawnState where
  name : String
  energy : Nat
  rawMemory : JsValue
  deriving DecidableEq

/-- The observable effects of processing one spawner for one tick. -/
structure SpawnResult where
  spawnRequests : List SpawnRequest := []
  memWrite : Option JsValue := none
  deriving DecidableEq

/-- `spawn_simple_worker` (lines 76–81): fixed loadout `[Move, Carry, Work]`,
the given name, and initial memory `CreepMemory::SimpleWorker(SimpleJob::Idle)`
(here the properly wrapped form is written). -/
def spawn_simple_worker (name : String) : SpawnRequest :=
  { parts := [Part.move, Part.carry, Part.work],
    name := name,
    memory := encodeCreepMemory (CreepMemory.SimpleWorker SimpleJob.Idle) }

/-- Two's-complement wrap into the `i32` range: the semantics of the source's
`n + 1` on an `i32` in a release build (screeps bots are deployed as release
wasm, where overflow checks are off; a debug build would panic at the wrap
point instead). -/
def wrapI32 (n : Int) : Int :=
  (n + 2 ^ 31) % 2 ^ 32 - 2 ^ 31

/-- `run_spawn` (lines 96–113): match on the pair of the spawner's name and
the decode result of its memory.  Any name with a decoded `GenericSpawner(n)`
spawns once the stored energy reaches 200 and bumps the `i32` counter (with
wrap-around at `i32Max`); only the spawner named "Spawn1" is bootstrapped on
decode failure; every other decode failure is a logged no-op. -/
def run_spawn (spawn : SpawnState) : SpawnResult :=
  match spawn.name, decodeStructureMemory spawn.rawMemory with
  | _, some (StructureMemory.GenericSpawner n) =>
      if spawn.energy ≥ 200 then
        { spawnRequests := [spawn_simple_worker (spawn.name ++ ".Simple." ++ toString n)],
          memWrite := some (encodeStructureMemory (StructureMemory.GenericSpawner (wrapI32 (n + 1)))) }
      else
        {}
  | "Spawn1", none =>
      { memWrite := some (encodeStructureMemory (StructureMemory.GenericSpawner 0)) }
  | _, none => {}

/-- Whether a world-action call affects resources (everything except movement). -/
def Action.resourceAffecting : Action → Bool
  | Action.transfer _ _ => true
  | Action.harvest _ => true
  | Action.build _ => true
  | Action.upgrade _ => true
  | Action.moveTo _ => false

/-! ## Helper lemmas -/

theorem decodeSimpleJob_encodeSimpleJob (j : SimpleJob) :
    decodeSimpleJob (encodeSimpleJob j) = some j := by
  cases j <;> rfl

theorem decodeCreepMemory_encodeSimpleJob (j : SimpleJob) :
    decodeCreepMemory (encodeSimpleJob j) = none := by
  cases j <;> rfl

theorem run_simple_worker_memWrite_isBare (w : World) (c : CreepState) (job : SimpleJob)
    (v : JsValue) (h : (run_simple_worker_with_job w c job).memWrite = some v) :
    ∃ j, v = encodeSimpleJob j := by
  cases job <;> simp only [run_simple_worker_with_job] at h <;>
    (repeat' split at h) <;> simp_all <;> exact ⟨_, h.symm⟩

theorem run_simple_worker_actions_length (w : World) (c : CreepState) (job : SimpleJob) :
    (run_simple_worker_with_job w c job).actions.length ≤ 1 := by
  cases job <;> simp only [run_simple_worker_with_job] <;> (repeat' split) <;> simp

theorem decodeI32_range (v : JsValue) (n : Int) (h : decodeI32 v = some n) :
    i32Min ≤ n ∧ n ≤ i32Max := by
  cases v <;> try exact Option.noConfusion h
  case num m =>
    simp only [decodeI32] at h
    split at h
    · have hmn := Option.some.inj h
      subst hmn
      assumption
    · exact Option.noConfusion h

theorem decodeStructureMemory_counter_range (raw : JsValue) (n : Int)
    (h : decodeStructureMemory raw = some (StructureMemory.GenericSpawner n)) :
    i32Min ≤ n ∧ n ≤ i32Max := by
  cases raw <;> try exact Option.noConfusion h
  case objCons tag v rest =>
    cases rest <;> try exact Option.noConfusion h
    case objNil =>
      simp only [decodeStructureMemory] at h
      split at h
      · obtain ⟨m, hm, hmn⟩ := Option.map_eq_some'.mp h
        have hmn2 : m = n := by
          cases hmn
          rfl
        subst hmn2
        exact decodeI32_range v _ hm
      · exact Option.noConfusion h

theorem wrapI32_eq_self (n : Int) (h1 : i32Min ≤ n) (h2 : n ≤ i32Max) : wrapI32 n = n := by
  unfold wrapI32
  unfold i32Min at h1
  unfold i32Max at h2
  omega

theorem wrapI32_at_i32Max : wrapI32 (i32Max + 1) = i32Min := by
  unfold wrapI32 i32Max i32Min
  decide

/-! ## Claim theorems -/

/-- C1: every memory write a creep job transition makes is a bare `SimpleJob`
value; decoding it with the `CreepMemory` decoder of `run_creep` (which expects
the `SimpleWorker` wrapper) fails, so on the next tick the reconstructed
memory is the default `SimpleWorker(Idle)` rather than the job written. -/
theorem bare_job_write_reconstructs_as_default_idle (w : World) (c : CreepState)
    (job : SimpleJob) (v : JsValue)
    (h : (run_simple_worker_with_job w c job).memWrite = some v) :
    decodeCreepMemory v = none ∧
    decodeCreepMemoryOrDefault v = CreepMemory.SimpleWorker SimpleJob.Idle := by
  obtain ⟨j, rfl⟩ := run_simple_worker_memWrite_isBare w c job v h
  refine ⟨decodeCreepMemory_encodeSimpleJob j, ?_⟩
  simp [decodeCreepMemoryOrDefault, decodeCreepMemory_encodeSimpleJob j]

theorem bare_job_write_reconstructs_as_default_idle_witness :
    decodeCreepMemory (JsValue.str "Idle") = none ∧
    decodeCreepMemoryOrDefault (JsValue.str "Idle") = CreepMemory.SimpleWorker SimpleJob.Idle :=
  bare_job_write_reconstructs_as_default_idle {}
    { pos := { x := 0, y := 0 }, freeEnergyCapacity := 0, room := none }
    (SimpleJob.MoveToConstructionSite "cs1") (JsValue.str "Idle") rfl

/-- C2 counterexample: a creep in `TransferToSpawn("s1")` whose spawn does not
resolve is processed by a panicking `expect`, not by a fallback to Idle: the
tick does not terminate normally and no memory is written. -/
theorem transferToSpawn_unresolved_panics_without_idle_write :
    (run_simple_worker_with_job {}
        { pos := { x := 0, y := 0 }, freeEnergyCapacity := 0, room := none }
        (SimpleJob.TransferToSpawn "s1")).term ≠ Termination.ok ∧
    (run_simple_worker_with_job {}
        { pos := { x := 0, y := 0 }, freeEnergyCapacity := 0, room := none }
        (SimpleJob.TransferToSpawn "s1")).memWrite = none := by
  decide

/-- C2 amended: of the job variants holding a target identifier, exactly the
two handled `MoveTo*` variants (`MoveToConstructionSite`, `MoveToController`)
fall back to Idle — written as a bare `SimpleJob` — without panicking when
resolution fails; `TransferToSpawn` and `HarvestSource` panic instead, and the
remaining variants have no match arm at all. -/
theorem moveTo_target_unresolved_falls_back_to_idle (w : World) (c : CreepState) :
    (∀ siteId, resolveConstructionSite w siteId = none →
      run_simple_worker_with_job w c (SimpleJob.MoveToConstructionSite siteId) =
        { actions := [], memWrite := some (encodeSimpleJob SimpleJob.Idle),
          term := Termination.ok }) ∧
    (∀ controllerId, resolveController w controllerId = none →
      run_simple_worker_with_job w c (SimpleJob.MoveToController controllerId) =
        { actions := [], memWrite := some (encodeSimpleJob SimpleJob.Idle),
          term := Termination.ok }) := by
  constructor <;> intro id h <;> simp only [run_simple_worker_with_job, h]

theorem moveTo_target_unresolved_falls_back_to_idle_witness :
    run_simple_worker_with_job {}
        { pos := { x := 0, y := 0 }, freeEnergyCapacity := 0, room := none }
        (SimpleJob.MoveToConstructionSite "cs1") =
      { actions := [], memWrite := some (encodeSimpleJob SimpleJob.Idle),
        term := Termination.ok } ∧
    run_simple_worker_with_job {}
        { pos := { x := 0, y := 0 }, freeEnergyCapacity := 0, room := none }
        (SimpleJob.MoveToController "c1") =
      { actions := [], memWrite := some (encodeSimpleJob SimpleJob.Idle),
        term := Termination.ok } :=
  ⟨(moveTo_target_unresolved_falls_back_to_idle {} _).1 "cs1" rfl,
   (moveTo_target_unresolved_falls_back_to_idle {} _).2 "c1" rfl⟩

/-- The concrete scenario for the `TransferToSpawn` claims: spawn "s1" at the
origin, the creep adjacent to it, and the creep's room holding source "src1". -/
def spawnS1 : SpawnObj := { id := "s1", pos := { x := 0, y := 0 } }

def sourceSrc1 : SourceObj := { id := "src1", pos := { x := 5, y := 5 } }

def roomWithSrc1 : RoomObj := { sources := [sourceSrc1] }

def worldWithS1 : World := { spawns := [spawnS1] }

def creepNearS1 : CreepState :=
  { pos := { x := 1, y := 0 }, freeEnergyCapacity := 0, room := some roomWithSrc1 }

/-- C3 counterexample: a creep in `TransferToSpawn("s1")`, adjacent to the
resolved spawn, persists `MoveToSource` of the room's first source — not
`HarvestSource` as the spec claims (in neither the bare nor the wrapped
encoding). -/
theorem transferToSpawn_adjacent_writes_moveToSource_not_harvestSource :
    (run_simple_worker_with_job worldWithS1 creepNearS1
        (SimpleJob.TransferToSpawn "s1")).memWrite =
      some (encodeSimpleJob (SimpleJob.MoveToSource "src1")) ∧
    (run_simple_worker_with_job worldWithS1 creepNearS1
        (SimpleJob.TransferToSpawn "s1")).memWrite ≠
      some (encodeSimpleJob (SimpleJob.HarvestSource "src1")) ∧
    (run_simple_worker_with_job worldWithS1 creepNearS1
        (SimpleJob.TransferToSpawn "s1")).memWrite ≠
      some (encodeCreepMemory (CreepMemory.SimpleWorker (SimpleJob.HarvestSource "src1"))) := by
  decide

/-- C3 amended: a creep in `TransferToSpawn` whose spawn resolves and that is
adjacent to it issues exactly one transfer of energy to the spawn and persists
`MoveToSource` (not `HarvestSource`) targeting the first source found in its
current room. -/
theorem transferToSpawn_adjacent_transfers_and_targets_first_source
    (w : World) (c : CreepState) (spawnId : String) (spawn : SpawnObj)
    (room : RoomObj) (source : SourceObj)
    (hres : resolveSpawn w spawnId = some spawn)
    (hnear : c.pos.isNearTo spawn.pos = true)
    (hroom : c.room = some room)
    (hsrc : room.sources.head? = some source) :
    run_simple_worker_with_job w c (SimpleJob.TransferToSpawn spawnId) =
      { actions := [Action.transfer spawn.id ResourceType.energy],
        memWrite := some (encodeSimpleJob (SimpleJob.MoveToSource source.id)),
        term := Termination.ok } := by
  simp only [run_simple_worker_with_job, hres, hnear, hroom, hsrc]
  simp

theorem transferToSpawn_adjacent_transfers_and_targets_first_source_witness :
    run_simple_worker_with_job worldWithS1 creepNearS1 (SimpleJob.TransferToSpawn "s1") =
      { actions := [Action.transfer "s1" ResourceType.energy],
        memWrite := some (encodeSimpleJob (SimpleJob.MoveToSource "src1")),
        term := Termination.ok } :=
  transferToSpawn_adjacent_transfers_and_targets_first_source
    worldWithS1 creepNearS1 "s1" spawnS1 roomWithSrc1 sourceSrc1 rfl rfl rfl rfl

/-- C4: the persisted-memory codec round-trips every `CreepMemory` value and
every `StructureMemory` value whose counter lies in the `i32` range (i.e.
every value the source's `i32` field can hold). -/
theorem memory_codec_roundtrip :
    (∀ m : CreepMemory, decodeCreepMemory (encodeCreepMemory m) = some m) ∧
    (∀ m : StructureMemory, m.counterInRange →
      decodeStructureMemory (encodeStructureMemory m) = some m) := by
  constructor
  · intro m
    cases m with
    | SimpleWorker j =>
        simp [decodeCreepMemory, encodeCreepMemory, decodeSimpleJob_encodeSimpleJob]
  · intro m h
    cases m with
    | GenericSpawner n =>
        simp only [StructureMemory.counterInRange] at h
        simp [decodeStructureMemory, encodeStructureMemory, decodeI32, h]

theorem memory_codec_roundtrip_witness :
    decodeCreepMemory (encodeCreepMemory (CreepMemory.SimpleWorker (SimpleJob.HarvestSource "abc"))) =
      some (CreepMemory.SimpleWorker (SimpleJob.HarvestSource "abc")) ∧
    decodeStructureMemory (encodeStructureMemory (StructureMemory.GenericSpawner 7)) =
      some (StructureMemory.GenericSpawner 7) :=
  ⟨memory_codec_roundtrip.1 (CreepMemory.SimpleWorker (SimpleJob.HarvestSource "abc")),
   memory_codec_roundtrip.2 (StructureMemory.GenericSpawner 7) (by decide)⟩

/-- C5: decoding a creep's raw memory never fails the tick: it yields the
decoded `CreepMemory` when decoding succeeds and the default
`SimpleWorker(Idle)` otherwise, and `run_creep` always proceeds with that
result. -/
theorem creep_memory_decode_never_fails_tick (w : World) (c : CreepState) (raw : JsValue) :
    ((∃ m, decodeCreepMemory raw = some m ∧ decodeCreepMemoryOrDefault raw = m) ∨
      (decodeCreepMemory raw = none ∧
        decodeCreepMemoryOrDefault raw = CreepMemory.SimpleWorker SimpleJob.Idle)) ∧
    run_creep w c raw = run_simple_worker_with_job w c (decodeCreepMemoryOrDefault raw).job := by
  constructor
  · cases h : decodeCreepMemory raw with
    | none => exact Or.inr ⟨rfl, by simp [decodeCreepMemoryOrDefault, h]⟩
    | some m => exact Or.inl ⟨m, rfl, by simp [decodeCreepMemoryOrDefault, h]⟩
  · cases hm : decodeCreepMemoryOrDefault raw with
    | SimpleWorker j => simp only [run_creep, hm, CreepMemory.job]

/-- C6: a creep in `HarvestSource` whose source resolves and that is adjacent
to it harvests (exactly one action, memory untouched) while it has free
capacity; at capacity it issues no action and transitions by the fixed
priority order over its room: first construction site, else first owned
spawn, else the room controller. -/
theorem harvestSource_adjacent_harvests_or_picks_next_target
    (w : World) (c : CreepState) (sourceId : String) (source : SourceObj)
    (hres : resolveSource w sourceId = some source)
    (hnear : c.pos.isNearTo source.pos = true) :
    (c.freeEnergyCapacity > 0 →
      run_simple_worker_with_job w c (SimpleJob.HarvestSource sourceId) =
        { actions := [Action.harvest source.id], memWrite := none, term := Termination.ok }) ∧
    (∀ room, c.freeEnergyCapacity = 0 → c.room = some room →
      ((∀ site, room.myConstructionSites.head? = some site →
        run_simple_worker_with_job w c (SimpleJob.HarvestSource sourceId) =
          { actions := [],
            memWrite := some (encodeSimpleJob (SimpleJob.MoveToConstructionSite site.id)),
            term := Termination.ok }) ∧
      (∀ spawn, room.myConstructionSites = [] → room.mySpawns.head? = some spawn →
        run_simple_worker_with_job w c (SimpleJob.HarvestSource sourceId) =
          { actions := [],
            memWrite := some (encodeSimpleJob (SimpleJob.MoveToSpawn spawn.id)),
            term := Termination.ok }) ∧
      (∀ controller, room.myConstructionSites = [] → room.mySpawns = [] →
          room.controller = some controller →
        run_simple_worker_with_job w c (SimpleJob.HarvestSource sourceId) =
          { actions := [],
            memWrite := some (encodeSimpleJob (SimpleJob.MoveToController controller.id)),
            term := Termination.ok }))) := by
  constructor
  · intro hcap
    simp only [run_simple_worker_with_job, hres, hnear, if_pos hcap, if_true]
  · intro room hcap hroom
    refine ⟨?_, ?_, ?_⟩
    · intro site hsite
      simp only [run_simple_worker_with_job, hres, hnear, hcap, hroom, hsite]
      simp
    · intro spawn hsites hspawn
      simp only [run_simple_worker_with_job, hres, hnear, hcap, hroom, hsites, hspawn]
      simp
    · intro controller hsites hspawns hctl
      simp only [run_simple_worker_with_job, hres, hnear, hcap, hroom, hsites, hspawns, hctl]
      simp

theorem harvestSource_adjacent_harvests_or_picks_next_target_witness :
    run_simple_worker_with_job
        { sources := [{ id := "src1", pos := { x := 0, y := 0 } }] }
        { pos := { x := 1, y := 1 }, freeEnergyCapacity := 50, room := none }
        (SimpleJob.HarvestSource "src1") =
      { actions := [Action.harvest "src1"], memWrite := none, term := Termination.ok } :=
  (harvestSource_adjacent_harvests_or_picks_next_target
      { sources := [{ id := "src1", pos := { x := 0, y := 0 } }] }
      { pos := { x := 1, y := 1 }, freeEnergyCapacity := 50, room := none }
      "src1" { id := "src1", pos := { x := 0, y := 0 } } rfl rfl).1 (by decide)

/-- C7 counterexample: a spawner whose memory decodes to
`GenericSpawner(i32Max)` (the largest `i32`, admitted by the decoder) with
250 stored energy does NOT get memory `GenericSpawner(i32Max + 1)` — the
`i32` counter wraps to `i32Min` instead. -/
theorem run_spawn_counter_wraps_at_i32Max :
    (run_spawn { name := "Spawn1", energy := 250,
                 rawMemory := encodeStructureMemory (StructureMemory.GenericSpawner i32Max) }).memWrite =
      some (encodeStructureMemory (StructureMemory.GenericSpawner i32Min)) ∧
    (run_spawn { name := "Spawn1", energy := 250,
                 rawMemory := encodeStructureMemory (StructureMemory.GenericSpawner i32Max) }).memWrite ≠
      some (encodeStructureMemory (StructureMemory.GenericSpawner (i32Max + 1))) := by
  decide

/-- C7 amended: a spawner with decoded memory `GenericSpawner(n)` and at least
200 stored energy issues exactly one creation request — named
`<spawnname>.Simple.<n>`, with the fixed `[Move, Carry, Work]` loadout and
initial memory `SimpleWorker(Idle)` — and its memory becomes
`GenericSpawner` of the wrapped `i32` increment of `n`: that is `n + 1`
whenever `n < i32Max`, and `i32Min` at `n = i32Max`.  Below 200 it issues
nothing and writes nothing. -/
theorem run_spawn_genericSpawner_spawns_at_threshold
    (s : SpawnState) (n : Int)
    (h : decodeStructureMemory s.rawMemory = some (StructureMemory.GenericSpawner n)) :
    (s.energy ≥ 200 →
      run_spawn s =
        { spawnRequests := [{ parts := [Part.move, Part.carry, Part.work],
                              name := s.name ++ ".Simple." ++ toString n,
                              memory := encodeCreepMemory (CreepMemory.SimpleWorker SimpleJob.Idle) }],
          memWrite := some (encodeStructureMemory (StructureMemory.GenericSpawner (wrapI32 (n + 1)))) }) ∧
    (n < i32Max → wrapI32 (n + 1) = n + 1) ∧
    (n = i32Max → wrapI32 (n + 1) = i32Min) ∧
    (s.energy < 200 → run_spawn s = { spawnRequests := [], memWrite := none }) := by
  have hrange := decodeStructureMemory_counter_range s.rawMemory n h
  refine ⟨?_, ?_, ?_, ?_⟩
  · intro he
    unfold run_spawn
    rw [h]
    simp [he, spawn_simple_worker]
  · intro hlt
    refine wrapI32_eq_self (n + 1) ?_ ?_
    · have h1 := hrange.1
      omega
    · omega
  · intro heq
    subst heq
    exact wrapI32_at_i32Max
  · intro he
    have hne : ¬s.energy ≥ 200 := by omega
    unfold run_spawn
    rw [h]
    simp [hne]

theorem run_spawn_genericSpawner_spawns_at_threshold_witness :
    run_spawn { name := "Spawn1", energy := 250,
                rawMemory := encodeStructureMemory (StructureMemory.GenericSpawner 5) } =
      { spawnRequests := [{ parts := [Part.move, Part.carry, Part.work],
                            name := "Spawn1.Simple.5",
                            memory := encodeCreepMemory (CreepMemory.SimpleWorker SimpleJob.Idle) }],
        memWrite := some (encodeStructureMemory (StructureMemory.GenericSpawner 6)) } :=
  (run_spawn_genericSpawner_spawns_at_threshold
      { name := "Spawn1", energy := 250,
        rawMemory := encodeStructureMemory (StructureMemory.GenericSpawner 5) }
      5 (by decide)).1 (by decide)

/-- C8 counterexample: a spawner named "Spawn2" whose memory fails to decode
is NOT bootstrapped — `run_spawn` writes nothing (the bootstrap arm of the
match is restricted to the name "Spawn1"). -/
theorem run_spawn_nonSpawn1_decode_failure_not_bootstrapped :
    run_spawn { name := "Spawn2", energy := 250, rawMemory := JsValue.undefined } =
      { spawnRequests := [], memWrite := none } ∧
    (run_spawn { name := "Spawn2", energy := 250, rawMemory := JsValue.undefined }).memWrite ≠
      some (encodeStructureMemory (StructureMemory.GenericSpawner 0)) := by
  decide

/-- C8 amended: on decode failure, only the spawner named "Spawn1" is
initialized to `GenericSpawner(0)`; any other spawner is left untouched.
Neither issues a creation request that tick. -/
theorem run_spawn_decode_failure_bootstraps_only_spawn1
    (s : SpawnState) (h : decodeStructureMemory s.rawMemory = none) :
    (s.name = "Spawn1" →
      run_spawn s = { spawnRequests := [],
                      memWrite := some (encodeStructureMemory (StructureMemory.GenericSpawner 0)) }) ∧
    (s.name ≠ "Spawn1" → run_spawn s = { spawnRequests := [], memWrite := none }) := by
  obtain ⟨name, energy, raw⟩ := s
  simp only at h
  unfold run_spawn
  simp only [h]
  constructor
  · intro hn
    subst hn
    rfl
  · intro hn
    split <;> simp_all

theorem run_spawn_decode_failure_bootstraps_only_spawn1_witness :
    run_spawn { name := "Spawn1", energy := 0, rawMemory := JsValue.null } =
      { spawnRequests := [],
        memWrite := some (encodeStructureMemory (StructureMemory.GenericSpawner 0)) } :=
  (run_spawn_decode_failure_bootstraps_only_spawn1
      { name := "Spawn1", energy := 0, rawMemory := JsValue.null } rfl).1 rfl

/-- C9: processing one creep for one tick — for any job and any fixed world
snapshot — issues at most one world-action call, and hence at most one
resource-affecting action. -/
theorem creep_tick_issues_at_most_one_action (w : World) (c : CreepState) (raw : JsValue) :
    (∀ job, (run_simple_worker_with_job w c job).actions.length ≤ 1) ∧
    (run_creep w c raw).actions.length ≤ 1 ∧
    ((run_creep w c raw).actions.filter Action.resourceAffecting).length ≤ 1 := by
  have hcreep : (run_creep w c raw).actions.length ≤ 1 := by
    cases hm : decodeCreepMemoryOrDefault raw with
    | SimpleWorker j =>
        simp only [run_creep, hm]
        exact run_simple_worker_actions_length w c j
  exact ⟨fun job => run_simple_worker_actions_length w c job, hcreep,
    le_trans ((List.filter_sublist _).length_le) hcreep⟩

/-- C10: the source's match over `SimpleJob` has no arm for `Idle` (it is one
of the variants left to the non-exhaustive match's missing tail), so a creep
whose decoded job is `Idle` does not reach the documented no-op: processing
ends in the uncovered-match outcome (still with no action and no memory
write). -/
theorem idle_job_hits_uncovered_match_arm (w : World) (c : CreepState) :
    run_simple_worker_with_job w c SimpleJob.Idle =
      { actions := [], memWrite := none, term := Termination.uncoveredMatch } :=
  rfl

end ScreepsStarter
